import Mathlib

/-!
# ClawCat — verification of the client-side state & animation coordination engine

Shallow embedding of the ClawCat frontend (TypeScript, `ClawCatPlugin/frontend/src`)
in Lean 4.  Numbers that are JS `number`s are modelled as `ℚ`; JS `Record`s are
modelled as association lists; `undefined`/missing JSON fields are modelled as
`Option`; JS falsy-or (`a || b`) is modelled explicitly per field type.

The single-threaded event loop is modelled as a small-step transition relation in
which each event handler (timer callback, animation frame, watch callback,
mode/state transition hook) runs atomically; `setTimeout` / `requestAnimationFrame`
handles held in a variable are modelled as booleans ("a pending callback chain is
alive and tracked by this variable"), which is adequate because every handler
either continues its own chain or clears the variable before re-arming it.
-/

namespace ClawCat

/-- `OperatingMode` — source: `currentMode: Ref<'slacking' | 'spying'>`
(`useModeState.ts`). `slacking` is the spec's Slack mode, `spying` the Spy mode. -/
inductive Mode
  | slacking
  | spying
deriving DecidableEq, Repr

/-- `ActivityState` — source: `currentState: Ref<'resting' | 'working' | 'confirming'>`. -/
inductive Activity
  | resting
  | working
  | confirming
deriving DecidableEq, Repr

/-! ## §1 Parameter Surface (`src/utils/live2d.ts`, `src/unnamed/part_003`) -/

/-- One named parameter of a loaded character model: its identifier, declared
range and current value.

Modelled from the spec: the parameter table lives inside the external
character-animation runtime (`coreModel` of `pixi-live2d-display`), which is out
of scope per spec §1/§6; the spec describes it as "a named, range-bounded
numeric/boolean parameter space (set/get, clamped)" (spec §2, §3 ParameterRange). -/
structure CoreParam where
  id : String
  min : ℚ
  max : ℚ
  value : ℚ
deriving DecidableEq, Repr

/-- Modelled from the spec: the external runtime's core model is its list of
declared parameters (spec §2 "Parameter Surface"). -/
structure CoreModel where
  params : List CoreParam
deriving DecidableEq, Repr

/-- Modelled from the spec: `coreModel.getParameterIndex(id)` of the external
runtime — index of the parameter with the given identifier, `-1` when no such
parameter is declared on the model. -/
def CoreModel.getParameterIndex (m : CoreModel) (id : String) : Int :=
  match m.params.findIdx? (fun p => p.id = id) with
  | some i => (i : Int)
  | none => -1

/-- Modelled from the spec: `coreModel.getParameterMinimumValue(index)` of the
external runtime — the declared minimum, `0` at an invalid index. -/
def CoreModel.getParameterMinimumValue (m : CoreModel) (index : Int) : ℚ :=
  if h : 0 ≤ index ∧ index.toNat < m.params.length then
    (m.params.get ⟨index.toNat, h.2⟩).min
  else 0

/-- Modelled from the spec: `coreModel.getParameterMaximumValue(index)` of the
external runtime — the declared maximum, `0` at an invalid index. -/
def CoreModel.getParameterMaximumValue (m : CoreModel) (index : Int) : ℚ :=
  if h : 0 ≤ index ∧ index.toNat < m.params.length then
    (m.params.get ⟨index.toNat, h.2⟩).max
  else 0

/-- Modelled from the spec: `coreModel.setParameterValueById(id, v)` of the
external runtime — writes the value (clamped into the declared range, spec §2
"set/get, clamped") and reports `true`; reports `false` and leaves the model
unchanged when the parameter is not declared. -/
def CoreModel.setParameterValueById (m : CoreModel) (id : String) (v : ℚ) :
    CoreModel × Bool :=
  if (m.params.findIdx? (fun p => p.id = id)).isSome then
    ({ params := m.params.map (fun p =>
        if p.id = id then { p with value := max p.min (min p.max v) } else p) }, true)
  else (m, false)

/-- State of the `Live2d` wrapper class (`live2d.ts`): `model = none` when no
model is loaded (`this.model === null`, or its `internalModel.coreModel` is
unavailable). -/
structure Live2dState where
  model : Option CoreModel
deriving DecidableEq, Repr

/-- Source: `Live2d.getParameterRange(id)` (`live2d.ts` lines 139–148):
```
const coreModel = this.getCoreModel()
if (!coreModel) return { min: 0, max: 0 }
const index = coreModel.getParameterIndex(id)
const min = coreModel.getParameterMinimumValue(index)
const max = coreModel.getParameterMaximumValue(index)
return { min, max }
``` -/
def getParameterRange (s : Live2dState) (id : String) : ℚ × ℚ :=
  match s.model with
  | none => (0, 0)
  | some coreModel =>
    let index := coreModel.getParameterIndex id
    (coreModel.getParameterMinimumValue index, coreModel.getParameterMaximumValue index)

/-- Source: `Live2d.setParameterValue(id, value)` (`live2d.ts` lines 150–155):
```
const coreModel = this.getCoreModel()
if (!coreModel) return false
return coreModel.setParameterValueById?.(id, Number(value)) ?? false
```
Returns the (possibly updated) wrapper state together with the boolean success
flag. -/
def setParameterValue (s : Live2dState) (id : String) (v : ℚ) : Live2dState × Bool :=
  match s.model with
  | none => (s, false)
  | some coreModel =>
    let r := coreModel.setParameterValueById id v
    ({ model := some r.1 }, r.2)

/-- A parameter identifier is known on the wrapper state when a model is loaded
and declares it. -/
def paramKnown (s : Live2dState) (id : String) : Bool :=
  match s.model with
  | none => false
  | some m => m.params.any (fun p => p.id = id)

/-- Well-formedness of a loaded model, justified by the spec's sentinel
convention (spec §3: "a range of (0,0) is the sentinel for 'parameter not
present on this model'"): no declared parameter has the degenerate range
`(0, 0)`. -/
def Live2dState.WF (s : Live2dState) : Prop :=
  match s.model with
  | none => True
  | some m => ∀ p ∈ m.params, ¬(p.min = 0 ∧ p.max = 0)

instance (s : Live2dState) : Decidable s.WF := by
  unfold Live2dState.WF
  cases s.model with
  | none => exact inferInstanceAs (Decidable True)
  | some m => exact inferInstanceAs (Decidable (∀ p ∈ m.params, ¬(p.min = 0 ∧ p.max = 0)))

/-! ## §2 Status Client (`src/composables/useBackend.ts`) -/

/-- JS falsy-or on an optional string field: `v || d` where a missing field and
the empty string are falsy. -/
def jsOrStr (v : Option String) (d : String) : String :=
  match v with
  | some s => if s = "" then d else s
  | none => d

/-- JS falsy-or on an optional integer field: `v || d` where a missing field
and `0` are falsy. -/
def jsOrInt (v : Option Int) (d : Int) : Int :=
  match v with
  | some n => if n = 0 then d else n
  | none => d

/-- The `data` object of a hook payload (`HookPayload['data']` in
`useBackend.ts`): all fields optional. -/
structure HookData where
  caption : Option String
  can_always : Option Bool
  jump_only : Option Bool
deriving DecidableEq, Repr

/-- A hook payload (`HookPayload` in `useBackend.ts`); only the fields the
frontend reads are modelled. -/
structure HookPayload where
  action : Option String
  data : Option HookData
deriving DecidableEq, Repr

/-- The raw JSON body of a `GET /status` response: every field may be absent
(`none`) or present (possibly falsy). -/
structure RawStatus where
  mode : Option String
  pid : Option Int
  state : Option String
  message : Option String
  hook_payload : Option HookPayload
  hook_type : Option String
  hook_action : Option String
deriving DecidableEq, Repr

/-- The normalized status record `currentStatus` (`BackendStatus` in
`useBackend.ts`). -/
structure BackendStatus where
  mode : String
  pid : Int
  state : String
  message : String
  hook_payload : Option HookPayload
  hook_type : Option String
  hook_action : Option String
deriving DecidableEq, Repr

/-- Possible outcomes of the `fetch` inside `apiRequest` for the `/status`
endpoint: a 2xx response with a parsed JSON body, a non-2xx response, or a
thrown transport error. -/
inductive ApiOutcome
  | ok (body : RawStatus)
  | httpError (status : Nat)
  | transportError
deriving DecidableEq, Repr

/-- Source: `apiRequest` (`useBackend.ts` lines 54–85), specialised to the
`/status` endpoint: a 2xx response yields the parsed body; a non-2xx response
or a thrown transport error is caught and converted to the `null` sentinel
(never re-thrown; for `/status` it is not even logged). -/
def apiRequestStatus : ApiOutcome → Option RawStatus
  | .ok body => some body
  | .httpError _ => none
  | .transportError => none

/-- The normalization applied by `fetchStatus` (`useBackend.ts` lines 97–106):
each of `mode`/`pid`/`state`/`message` is replaced by a default when missing or
falsy, the three hook fields are passed through unmodified. -/
def normalizeStatus (data : RawStatus) : BackendStatus where
  mode := jsOrStr data.mode "slacking"
  pid := jsOrInt data.pid 0
  state := jsOrStr data.state "resting"
  message := jsOrStr data.message "Standing by..."
  hook_payload := data.hook_payload
  hook_type := data.hook_type
  hook_action := data.hook_action

/-- Source: `fetchStatus` (`useBackend.ts` lines 94–111).  Given the previous
`currentStatus` value and the outcome of the request, returns the new
`currentStatus` together with the function's return value (`null` on failure).
Totality of this function (and of `apiRequestStatus`) embeds the fact that no
error escapes the composition boundary. -/
def fetchStatus (prev : BackendStatus) (outcome : ApiOutcome) :
    BackendStatus × Option BackendStatus :=
  match apiRequestStatus outcome with
  | some data => (normalizeStatus data, some (normalizeStatus data))
  | none => (prev, none)

/-- Source: the initial value of `currentStatus` (`useBackend.ts` lines 41–49). -/
def initialBackendStatus : BackendStatus where
  mode := "slacking"
  pid := 0
  state := "resting"
  message := "Standing by..."
  hook_payload := none
  hook_type := none
  hook_action := none

/-! ## §3 Reactive Puppet Controller (`src/composables/useHandControl.ts`) -/

/-- Boolean prefix test on character lists (used to model JS `String.prototype`
operations so that concrete evaluations reduce in the kernel). -/
def charsPrefix : List Char → List Char → Bool
  | [], _ => true
  | _ :: _, [] => false
  | a :: as, b :: bs => a = b && charsPrefix as bs

/-- Boolean infix test on character lists. -/
def charsInfix (pat : List Char) : List Char → Bool
  | [] => charsPrefix pat []
  | b :: t => charsPrefix pat (b :: t) || charsInfix pat t

/-- JS `s.includes(pat)` for strings. -/
def strIncludes (s pat : String) : Bool :=
  charsInfix pat.data s.data

/-- JS `s.startsWith(pat)` for strings. -/
def strStartsWith (s pat : String) : Bool :=
  charsPrefix pat.data s.data

/-- JS `s.substring(n)` (drop the first `n` characters). -/
def strDropChars (s : String) (n : ℕ) : String :=
  ⟨s.data.drop n⟩

/-- JS `s.toLowerCase()`. -/
def strToLower (s : String) : String :=
  ⟨s.data.map Char.toLower⟩

/-- The two key-resource groups. -/
inductive Hand
  | left
  | right
deriving DecidableEq, Repr

/-- Source: `getHandFromPath` (`useHandControl.ts` lines 11–15):
```
if (path.includes('/left-keys/')) return 'left'
if (path.includes('/right-keys/')) return 'right'
return null
``` -/
def getHandFromPath (path : String) : Option Hand :=
  if strIncludes path "/left-keys/" then some Hand.left
  else if strIncludes path "/right-keys/" then some Hand.right
  else none

/-- The parameter writes performed by one run of the `useHandControl` watch
callback: the two hand-down booleans written to `CatParamLeftHandDown` /
`CatParamRightHandDown`, and whether the two `CatParamStickShow*Hand`
parameters are forced to `false` (which happens exactly when some key is
pressed). -/
structure HandWrites where
  leftHandDown : Bool
  rightHandDown : Bool
  hideStickHands : Bool
deriving DecidableEq, Repr

/-- Source: the watch callback of `useHandControl` (`useHandControl.ts` lines
18–39), as a pure function of its four inputs (`pressedKeys`, the two
`stickActive` flags, `currentMode`, `currentState`):
```
const paths = Object.values(keys)
const hasLeft = paths.some(path => getHandFromPath(path) === 'left')
const hasRight = paths.some(path => getHandFromPath(path) === 'right')
const hasAnyKey = Object.keys(keys).length > 0
const isMonitorWorking = mode === 'spying' && state === 'working'
live2d.setParameterValue('CatParamLeftHandDown', active.left || hasLeft || (isMonitorWorking && !hasAnyKey))
live2d.setParameterValue('CatParamRightHandDown', active.right || hasRight || (isMonitorWorking && !hasAnyKey))
if (hasAnyKey) { setParameterValue('CatParamStickShowLeftHand', false); setParameterValue('CatParamStickShowRightHand', false) }
``` -/
def handUpdate (keys : List (String × String)) (activeL activeR : Bool)
    (mode : Mode) (state : Activity) : HandWrites :=
  let paths := keys.map (fun kv => kv.2)
  let hasLeft := paths.any (fun path => getHandFromPath path = some Hand.left)
  let hasRight := paths.any (fun path => getHandFromPath path = some Hand.right)
  let hasAnyKey : Bool := decide (0 < keys.length)
  let isMonitorWorking : Bool := decide (mode = Mode.spying) && decide (state = Activity.working)
  { leftHandDown := activeL || hasLeft || (isMonitorWorking && !hasAnyKey)
    rightHandDown := activeR || hasRight || (isMonitorWorking && !hasAnyKey)
    hideStickHands := hasAnyKey }

/-- The spec's formula for the hand-down booleans (spec §4.5), stated in the
spec's words: hand-down iff the corresponding gesture channel is active, OR a
pressed key is tagged as belonging to that hand's resource group, OR
(mode = Spy ∧ activity = Working ∧ no keys pressed at all). -/
def handDownSpec (hand : Hand) (keys : List (String × String)) (active : Bool)
    (mode : Mode) (state : Activity) : Prop :=
  active = true ∨ (∃ kv ∈ keys, getHandFromPath kv.2 = some hand) ∨
    (mode = Mode.spying ∧ state = Activity.working ∧ keys = [])

/-! ## §4 Decision handling (`src/App.vue`) -/

/-- The two recognized decision kinds (`confirmingType` in `App.vue`);
`none` renders the generic "unknown, dismiss" affordance. -/
inductive ConfirmType
  | ask_permission
  | ask_user
deriving DecidableEq, Repr

/-- JS falsy-or on an optional boolean field: `v || d`. -/
def jsOrBool (v : Option Bool) (d : Bool) : Bool :=
  match v with
  | some b => if b then true else d
  | none => d

/-- JS falsy-or between two optional string fields, as in
`hook_action || hook_type`: the first operand when truthy, else the second
(possibly still absent or falsy). -/
def jsOrOpt (a b : Option String) : Option String :=
  match a with
  | some s => if s = "" then b else some s
  | none => b

/-- The UI refs of `App.vue` that make up the pending-decision record and the
fields the decision handlers touch: `currentState` (via `setState`),
`userInput`, `confirmingMessage`, `confirmingContext`, `confirmingType`,
`canAlways`, `needsJumpOnly`, `jumpOnly`. -/
structure UiDecisionState where
  activity : Activity
  userInput : String
  confirmingMessage : String
  confirmingContext : String
  confirmingType : Option ConfirmType
  canAlways : Bool
  needsJumpOnly : Bool
  jumpOnly : Bool
deriving DecidableEq, Repr

/-- The initial values of those refs (`App.vue` lines 236–243, and the initial
`currentState` of `useModeState`). -/
def initialUiDecision : UiDecisionState where
  activity := Activity.resting
  userInput := ""
  confirmingMessage := "等待确认..."
  confirmingContext := ""
  confirmingType := none
  canAlways := false
  needsJumpOnly := false
  jumpOnly := false

/-- Source: `setState` of `useModeState` — a no-op when the new value equals
the current one. -/
def setStateLocal (ui : UiDecisionState) (a : Activity) : UiDecisionState :=
  if ui.activity = a then ui else { ui with activity := a }

/-- The generic prompts that force a jump-only affordance (`App.vue` lines
516–521). -/
def genericPrompts : List String :=
  ["Claude Code needs your attention", "Claude needs your attention",
   "Input required", "Ready."]

/-- Source: the decision-record portion of the `watch` on
`currentStatus.value.state` (`App.vue` lines 489–540).  Given the new backend
`state` string, the top-level `hook_action` / `hook_type` fields, the
`hook_payload` and the previous UI state, returns the updated UI state.
(The session-stopped toast logic earlier in the same watcher touches disjoint
fields and is not part of the pending-decision record.)
```
if (newState === 'confirming' && currentStatus.value.hook_payload) {
  const payload = currentStatus.value.hook_payload
  const action = currentStatus.value.hook_action || currentStatus.value.hook_type
  if (action === 'ask_permission') {
    confirmingType.value = 'ask_permission'
    const data = payload.data || {}
    let caption = data.caption || '需要权限确认'
    if (caption.startsWith('Allow? ')) caption = caption.substring(7)
    confirmingContext.value = caption
    canAlways.value = data.can_always || false
    jumpOnly.value = data.jump_only || false
  } else if (action === 'ask_user') {
    confirmingType.value = 'ask_user'
    const data = payload.data || {}
    const caption = data.caption || '请输入内容'
    confirmingContext.value = caption
    needsJumpOnly.value = genericPrompts.some(prompt => caption.toLowerCase().includes(prompt.toLowerCase()))
  } else {
    confirmingType.value = null
    confirmingContext.value = '需要确认操作'
  }
} else if (newState !== 'confirming') {
  confirmingMessage.value = '等待确认...'; confirmingContext.value = ''
  confirmingType.value = null; canAlways.value = false
  needsJumpOnly.value = false; jumpOnly.value = false
}
``` -/
def stateWatchDecision (newState : String) (hookAction hookType : Option String)
    (hookPayload : Option HookPayload) (ui : UiDecisionState) : UiDecisionState :=
  if newState = "confirming" then
    match hookPayload with
    | some payload =>
      let action := jsOrOpt hookAction hookType
      if action = some "ask_permission" then
        let data := payload.data.getD ⟨none, none, none⟩
        let caption0 := jsOrStr data.caption "需要权限确认"
        let caption := if strStartsWith caption0 "Allow? " then strDropChars caption0 7 else caption0
        { ui with confirmingType := some ConfirmType.ask_permission
                  confirmingContext := caption
                  canAlways := jsOrBool data.can_always false
                  jumpOnly := jsOrBool data.jump_only false }
      else if action = some "ask_user" then
        let data := payload.data.getD ⟨none, none, none⟩
        let caption := jsOrStr data.caption "请输入内容"
        { ui with confirmingType := some ConfirmType.ask_user
                  confirmingContext := caption
                  needsJumpOnly := genericPrompts.any
                    (fun prompt => strIncludes (strToLower caption) (strToLower prompt)) }
      else
        { ui with confirmingType := none
                  confirmingContext := "需要确认操作" }
    | none => ui
  else
    { ui with confirmingMessage := "等待确认..."
              confirmingContext := ""
              confirmingType := none
              canAlways := false
              needsJumpOnly := false
              jumpOnly := false }

/-- The body posted to `POST /hook-response`:
`{choice, user_input?}` where `user_input` is present only when the handler
passed a second argument; the outer `Option` is field presence, the inner one
is JS `null`. -/
structure HookResponsePayload where
  choice : String
  user_input : Option (Option String)
deriving DecidableEq, Repr

/-- Source: payload construction of `sendHookResponse` (`useBackend.ts` lines
191–204): `const payload = { choice }; if (userInput !== undefined)
payload.user_input = userInput || null`. -/
def sendHookResponsePayload (choice : String) (userInput : Option String) :
    HookResponsePayload where
  choice := choice
  user_input :=
    match userInput with
    | none => none
    | some s => some (if s = "" then none else some s)

/-- Source: the synchronous prefix of `handleNotificationCancel` (`App.vue`
lines 294–309) — everything the handler does before its first `await`,
together with the decision request it then issues.  The returned state is
therefore the UI state that holds before the network call resolves. -/
def handleNotificationCancelSync (ui : UiDecisionState) :
    UiDecisionState × HookResponsePayload :=
  let ui := setStateLocal ui Activity.resting
  let ui := { ui with userInput := ""
                      confirmingMessage := "等待确认..."
                      confirmingContext := ""
                      confirmingType := none
                      needsJumpOnly := false }
  (ui, sendHookResponsePayload "__IGNORE__" (some "__IGNORE__"))

/-- Source: the synchronous prefix of `handleUnknownConfirm` (`App.vue` lines
322–339), analogous to `handleNotificationCancelSync` but additionally
resetting `canAlways` and `jumpOnly`. -/
def handleUnknownConfirmSync (ui : UiDecisionState) :
    UiDecisionState × HookResponsePayload :=
  let ui := setStateLocal ui Activity.resting
  let ui := { ui with userInput := ""
                      confirmingMessage := "等待确认..."
                      confirmingContext := ""
                      confirmingType := none
                      canAlways := false
                      needsJumpOnly := false
                      jumpOnly := false }
  (ui, sendHookResponsePayload "__IGNORE__" (some "__IGNORE__"))

/-! ## §5 The schedulers and the mode/state store
(`src/composables/useModeState.ts`, `useAgentActions.ts`, `useStickControl.ts`)

The single-threaded event loop is modelled as a transition relation whose
events are the handler bodies, each run atomically.  A `setTimeout` /
`requestAnimationFrame` variable is `true` when a pending callback chain is
alive and tracked by that variable; this is adequate because every source
handler either continues its own (now spent) chain or clears the variable
inside the same handler before re-arming it.  The pending key-release
`setTimeout`s created by `triggerRandomKey` are over-approximated by letting
the `holdRelease` event fire at any time. -/

/-- JS `record[k]` on the association-list model of a string `Record`. -/
def recLookup (l : List (String × String)) (k : String) : Option String :=
  match l.find? (fun kv => kv.1 = k) with
  | some kv => some kv.2
  | none => none

/-- JS `record[k] = v`. -/
def recInsert (l : List (String × String)) (k v : String) : List (String × String) :=
  if (l.find? (fun kv => kv.1 = k)).isSome then
    l.map (fun kv => if kv.1 = k then (k, v) else kv)
  else l ++ [(k, v)]

/-- JS `delete record[k]`. -/
def recErase (l : List (String × String)) (k : String) : List (String × String) :=
  l.filter (fun kv => ¬ kv.1 = k)

/-- The nondeterministic inputs one atomic event may consume: the re-probed
resources of a freshly loaded model, the `Math.random()` choices, and the
eased pointer position applied by an animation frame (whose closure state —
start point, target, start time — is abstracted by supplying the interpolated
ratio directly; `applyMouseRatio` itself is embedded exactly). -/
structure Oracle where
  newSupportKeys : List (String × String)
  newHasL : Bool
  newHasR : Bool
  keyIdx : ℕ
  xr : ℚ
  yr : ℚ
  finished : Bool
  tLX : ℚ
  tLY : ℚ
  tRX : ℚ
  tRY : ℚ
deriving DecidableEq, Repr

/-- The combined state of `useModeState`, `useAgentActions` and
`useStickControl`: the two-axis state machine, the pressed/support key records,
the five timer/frame handles, the closure-held stick and pointer positions,
the stick-parameter probe results for the loaded model, and the last written
logical values of the boolean puppet parameters the claims mention (writes to
absent parameters are no-ops on the model; the tracked value is the value such
a write carries). -/
structure SysState where
  mode : Mode
  activity : Activity
  pressedKeys : List (String × String)
  supportKeys : List (String × String)
  agentActionTimer : Bool
  agentMouseTimer : Bool
  agentMouseRaf : Bool
  mouseRatio : ℚ × ℚ
  spyStickTimer : Bool
  spyStickRaf : Bool
  stickActiveL : Bool
  stickActiveR : Bool
  leftStickX : ℚ
  leftStickY : ℚ
  rightStickX : ℚ
  rightStickY : ℚ
  targetLeftX : ℚ
  targetLeftY : ℚ
  targetRightX : ℚ
  targetRightY : ℚ
  hasL : Bool
  hasR : Bool
  showLeftHand : Bool
  showRightHand : Bool
  stickLeftDown : Bool
  stickRightDown : Bool
  leftHandDown : Bool
  rightHandDown : Bool
deriving DecidableEq, Repr

/-- Source: `stopAgentMouseDrag` (`useAgentActions.ts` lines 233–238). -/
def stopAgentMouseDrag (s : SysState) : SysState :=
  { s with agentMouseRaf := false }

/-- Source: `stopAgentActions` (`useAgentActions.ts` lines 370–380): clears the
key-pulse timer, the pointer-walk timer and the in-flight animation frame. -/
def stopAgentActions (s : SysState) : SysState :=
  stopAgentMouseDrag { s with agentActionTimer := false, agentMouseTimer := false }

/-- Source: `stopSpyStickControl` (`useStickControl.ts` lines 152–168): clears
the retarget timer and the per-frame loop, resets the four gesture
visibility/pressed parameters to `false` and the derived `active` flags to
`false`.  (The parameter writes go through `setParameterValue`, which is a
no-op on models lacking the parameter.) -/
def stopSpyStickControl (s : SysState) : SysState :=
  { s with spyStickTimer := false, spyStickRaf := false,
           showLeftHand := false, showRightHand := false,
           stickLeftDown := false, stickRightDown := false,
           stickActiveL := false, stickActiveR := false }

/-- Source: the clamping in `applyMouseRatio` (`useAgentActions.ts` line 241). -/
def clamp01 (x : ℚ) : ℚ := max 0 (min 1 x)

/-- Source: `applyMouseRatio` (`useAgentActions.ts` lines 240–255): clamps the
ratio pair and stores it; the derived writes to
`ParamMouseX/Y`/`ParamAngleX/Y` (skipped on a `(0,0)` range probe) are not
tracked by the machine. -/
def applyMouseRatio (s : SysState) (xRatio yRatio : ℚ) : SysState :=
  { s with mouseRatio := (clamp01 xRatio, clamp01 yRatio) }

/-- The gating predicate of the Autonomous Action Scheduler, re-checked by
every one of its timer/frame bodies:
`currentMode.value === 'spying' && currentState.value === 'working'`. -/
def agentGate (s : SysState) : Prop :=
  s.mode = Mode.spying ∧ s.activity = Activity.working

instance (s : SysState) : Decidable (agentGate s) := by
  unfold agentGate
  infer_instance

/-- Source: `availableKeys` inside `triggerRandomKey` (`useAgentActions.ts`
lines 266–268): all support-key names except the grouping-suffixed aliases
(`key.includes('_')`). -/
def availableKeys (s : SysState) : List String :=
  (s.supportKeys.map (fun kv => kv.1)).filter (fun k => !(strIncludes k "_"))

/-- Source: `triggerRandomKey` (`useAgentActions.ts` lines 259–289), minus the
deferred release it schedules (modelled as the separate `keyHoldRelease`
event): re-checks the gating predicate, picks a random eligible key, and
inserts it into `pressedKeys` when its resource path is truthy. -/
def triggerRandomKey (o : Oracle) (s : SysState) : SysState :=
  if ¬ agentGate s then s
  else
    let avail := availableKeys s
    if avail.isEmpty then s
    else
      match avail.get? (o.keyIdx % avail.length) with
      | some randomKey =>
        match recLookup s.supportKeys randomKey with
        | some path =>
          if path = "" then s
          else { s with pressedKeys := recInsert s.pressedKeys randomKey path }
        | none => s
      | none => s

/-- Source: the deferred key-release callback scheduled by `triggerRandomKey`
(`useAgentActions.ts` lines 282–287):
```
setTimeout(() => {
  if (pressedKeys.value[randomKey]) { delete pressedKeys.value[randomKey] }
}, duration)
```
It re-checks only that the entry is still present (truthy) — not the
mode/activity gating predicate — and deletes it. -/
def keyHoldRelease (k : String) (s : SysState) : SysState :=
  match recLookup s.pressedKeys k with
  | some path =>
    if path = "" then s else { s with pressedKeys := recErase s.pressedKeys k }
  | none => s

/-- Source: `scheduleNextKeyAction` (`useAgentActions.ts` lines 335–348): on
gate failure clears its own timer; otherwise fires `triggerRandomKey` and
re-arms itself. -/
def scheduleNextKeyAction (o : Oracle) (s : SysState) : SysState :=
  if ¬ agentGate s then { s with agentActionTimer := false }
  else
    let s := triggerRandomKey o s
    { s with agentActionTimer := true }

/-- Source: `triggerRandomMouseMove` (`useAgentActions.ts` lines 292–332):
re-checks the gate, picks a random target and duration (closure state, not
tracked), cancels any in-flight frame via `stopAgentMouseDrag`, and schedules
the first animation frame of the eased walk. -/
def triggerRandomMouseMove (s : SysState) : SysState :=
  if ¬ agentGate s then s
  else { (stopAgentMouseDrag s) with agentMouseRaf := true }

/-- Source: the `tick` animation-frame body of the eased pointer walk
(`useAgentActions.ts` lines 311–329): re-checks the gate each frame and
self-cancels if it no longer holds; otherwise applies the interpolated ratio
and re-arms unless the walk finished (`t = 1`). -/
def mouseTick (o : Oracle) (s : SysState) : SysState :=
  if ¬ agentGate s then stopAgentMouseDrag s
  else
    let s := applyMouseRatio s o.xr o.yr
    if o.finished then { s with agentMouseRaf := false }
    else { s with agentMouseRaf := true }

/-- Source: `scheduleNextMouseMove` (`useAgentActions.ts` lines 351–364). -/
def scheduleNextMouseMove (s : SysState) : SysState :=
  if ¬ agentGate s then { s with agentMouseTimer := false }
  else
    let s := triggerRandomMouseMove s
    { s with agentMouseTimer := true }

/-- Source: `startAgentAutoActions` (`useAgentActions.ts` lines 257–368): runs
`scheduleNextKeyAction()` then `scheduleNextMouseMove()` synchronously. -/
def startAgentAutoActions (o : Oracle) (s : SysState) : SysState :=
  scheduleNextMouseMove (scheduleNextKeyAction o s)

/-- Source: the `lerp` helper of `updateSticks` (`useStickControl.ts` line 58). -/
def lerpQ (start finish factor : ℚ) : ℚ :=
  start + (finish - start) * factor

/-- Source: `updateSticks` (`useStickControl.ts` lines 48–120): self-cancels
when the mode is no longer `slacking`; otherwise, per supported stick channel,
lerps the position toward the target with factor `0.1`, derives the `active`
flag from the `0.1` deadzone, writes the visibility/pressed parameters
accordingly, and re-arms the per-frame loop.  (The numeric `CatParamStickLX`
etc. writes, each guarded by its own non-`(0,0)` range probe, are not tracked.)
The closure-captured `hasLeft`/`hasRight` always agree with the state's probe
fields because every path that reloads a model stops this loop first and every
restart re-probes. -/
def updateSticks (s : SysState) : SysState :=
  if ¬(s.mode = Mode.slacking) then { s with spyStickRaf := false }
  else
    let s :=
      if s.hasL then
        let x := lerpQ s.leftStickX s.targetLeftX (1/10)
        let y := lerpQ s.leftStickY s.targetLeftY (1/10)
        let act : Bool := decide ((1 : ℚ)/10 < |x|) || decide ((1 : ℚ)/10 < |y|)
        { s with leftStickX := x, leftStickY := y, stickActiveL := act,
                 showLeftHand := act, stickLeftDown := act }
      else s
    let s :=
      if s.hasR then
        let x := lerpQ s.rightStickX s.targetRightX (1/10)
        let y := lerpQ s.rightStickY s.targetRightY (1/10)
        let act : Bool := decide ((1 : ℚ)/10 < |x|) || decide ((1 : ℚ)/10 < |y|)
        { s with rightStickX := x, rightStickY := y, stickActiveR := act,
                 showRightHand := act, stickRightDown := act }
      else s
    { s with spyStickRaf := true }

/-- Source: `randomizeStickTarget` (`useStickControl.ts` lines 123–145):
self-cancels when the mode is no longer `slacking`; otherwise picks new random
targets in `[-1, 1]²` per supported channel and re-arms itself. -/
def randomizeStickTarget (o : Oracle) (s : SysState) : SysState :=
  if ¬(s.mode = Mode.slacking) then { s with spyStickTimer := false }
  else
    let s := if s.hasL then { s with targetLeftX := o.tLX, targetLeftY := o.tLY } else s
    let s := if s.hasR then { s with targetRightX := o.tRX, targetRightY := o.tRY } else s
    { s with spyStickTimer := true }

/-- Source: `startSpyStickControl` (`useStickControl.ts` lines 21–150):
probes the stick parameters (`hasL`/`hasR` hold the probe results for the
loaded model), returns early when neither channel exists, clears any previous
timer and frame, then runs `updateSticks()` and `randomizeStickTarget()`
synchronously. -/
def startSpyStickControl (o : Oracle) (s : SysState) : SysState :=
  if ¬ s.hasL ∧ ¬ s.hasR then s
  else
    let s := { s with spyStickTimer := false, spyStickRaf := false }
    let s := updateSticks s
    randomizeStickTarget o s

/-- Source: `updateModeBehavior` with `reloadModel = true` (`useModeState.ts`
lines 92–135), which is how the `watch(currentMode)` hook invokes it: stop
both schedulers, destroy the old model, clear the pressed/support key records,
load the new mode's model and resources (the oracle supplies the re-probed
results; a load failure is caught and only logged), then — in `slacking` —
force the stick-hand visibility parameters off and start the Idle Gesture
Scheduler, or — in `spying` with activity `working` — start the Autonomous
Action Scheduler.  The handler (including its `await` points) is modelled as
one atomic event, matching the spec's §5 ordering guarantee. -/
def updateModeBehavior (o : Oracle) (s : SysState) : SysState :=
  let s := stopAgentActions s
  let s := stopSpyStickControl s
  let s := { s with pressedKeys := [], supportKeys := o.newSupportKeys,
                    hasL := o.newHasL, hasR := o.newHasR }
  if s.mode = Mode.slacking then
    let s := { s with showLeftHand := false, showRightHand := false }
    startSpyStickControl o s
  else
    if s.activity = Activity.working then startAgentAutoActions o s else s

/-- Source: `updateStateBehavior` (`useModeState.ts` lines 138–165): stop the
Autonomous Action Scheduler unconditionally; stop the Idle Gesture Scheduler
when the mode is not `slacking`, (re)start it when it is; start the Autonomous
Action Scheduler only under `spying ∧ working`.  (The `confirming` lightning
one-shot touches no tracked state.) -/
def updateStateBehavior (o : Oracle) (s : SysState) : SysState :=
  let s := stopAgentActions s
  let s := if ¬(s.mode = Mode.slacking) then stopSpyStickControl s else s
  let s := if s.mode = Mode.slacking then startSpyStickControl o s else s
  if s.mode = Mode.spying ∧ s.activity = Activity.working then startAgentAutoActions o s else s

/-- One run of the `useHandControl` watch callback on the machine state,
applying the `handUpdate` writes to the tracked parameters. -/
def applyHandWatch (s : SysState) : SysState :=
  let w := handUpdate s.pressedKeys s.stickActiveL s.stickActiveR s.mode s.activity
  let s := { s with leftHandDown := w.leftHandDown, rightHandDown := w.rightHandDown }
  if w.hideStickHands then { s with showLeftHand := false, showRightHand := false } else s

/-- Source: `testKeyPress` (`useModeState.ts` lines 194–204). -/
def testKeyPressFn (k : String) (s : SysState) : SysState :=
  match recLookup s.supportKeys k with
  | some path =>
    if path = "" then s else { s with pressedKeys := recInsert s.pressedKeys k path }
  | none => s

/-- Source: `testKeyRelease` (`useModeState.ts` lines 207–211). -/
def testKeyReleaseFn (s : SysState) : SysState :=
  { s with pressedKeys := [] }

/-- The initial state: `currentMode = 'slacking'`, `currentState = 'resting'`,
no keys, no timers, `currentMouseRatio = {x: 0.5, y: 0.5}`, stick positions and
targets at `0`, no model loaded yet (no stick parameters). -/
def initState : SysState where
  mode := Mode.slacking
  activity := Activity.resting
  pressedKeys := []
  supportKeys := []
  agentActionTimer := false
  agentMouseTimer := false
  agentMouseRaf := false
  mouseRatio := (1/2, 1/2)
  spyStickTimer := false
  spyStickRaf := false
  stickActiveL := false
  stickActiveR := false
  leftStickX := 0
  leftStickY := 0
  rightStickX := 0
  rightStickY := 0
  targetLeftX := 0
  targetLeftY := 0
  targetRightX := 0
  targetRightY := 0
  hasL := false
  hasR := false
  showLeftHand := false
  showRightHand := false
  stickLeftDown := false
  stickRightDown := false
  leftHandDown := false
  rightHandDown := false

/-- One atomic event of the single-threaded loop: an effective mode change
(the `watch(currentMode)` hook), an effective activity change (the
`watch(currentState)` hook), the initial `onMounted` behavior update, the
firing of any of the five scheduler timers/frames (enabled only while their
handle is alive), a pending key-release timeout (enabled at any time — an
over-approximation of the real pending set), the `useHandControl` watch, and
the manual test triggers. -/
inductive Step : SysState → SysState → Prop
  | setMode (s : SysState) (m : Mode) (o : Oracle) (h : m ≠ s.mode) :
      Step s (updateModeBehavior o { s with mode := m })
  | setActivity (s : SysState) (a : Activity) (o : Oracle) (h : a ≠ s.activity) :
      Step s (updateStateBehavior o { s with activity := a })
  | mount (s : SysState) (o : Oracle) :
      Step s (updateModeBehavior o s)
  | keyTimerFire (s : SysState) (o : Oracle) (h : s.agentActionTimer = true) :
      Step s (scheduleNextKeyAction o s)
  | mouseTimerFire (s : SysState) (h : s.agentMouseTimer = true) :
      Step s (scheduleNextMouseMove s)
  | mouseFrame (s : SysState) (o : Oracle) (h : s.agentMouseRaf = true) :
      Step s (mouseTick o s)
  | stickTimerFire (s : SysState) (o : Oracle) (h : s.spyStickTimer = true) :
      Step s (randomizeStickTarget o s)
  | stickFrame (s : SysState) (h : s.spyStickRaf = true) :
      Step s (updateSticks s)
  | holdRelease (s : SysState) (k : String) :
      Step s (keyHoldRelease k s)
  | handWatch (s : SysState) :
      Step s (applyHandWatch s)
  | testPress (s : SysState) (k : String) :
      Step s (testKeyPressFn k s)
  | testRelease (s : SysState) :
      Step s (testKeyReleaseFn s)

/-- The states reachable from the initial state. -/
inductive Reachable : SysState → Prop
  | init : Reachable initState
  | step {s t : SysState} : Reachable s → Step s t → Reachable t

/-- The Autonomous Action Scheduler is running: one of its two cadence timers
or its in-flight animation frame is alive. -/
def agentRunning (s : SysState) : Prop :=
  s.agentActionTimer = true ∨ s.agentMouseTimer = true ∨ s.agentMouseRaf = true

/-- The Idle Gesture Scheduler is running: its retarget timer or its per-frame
loop is alive. -/
def stickRunning (s : SysState) : Prop :=
  s.spyStickTimer = true ∨ s.spyStickRaf = true

/-- The scheduler-exclusion invariant: each scheduler may be running only under
its own operating mode (hence never both at once). -/
def SchedInv (s : SysState) : Prop :=
  (agentRunning s → s.mode = Mode.spying) ∧ (stickRunning s → s.mode = Mode.slacking)

/-! ### The Idle Gesture Scheduler's timer handles, instrumented

For the idempotence of `startSpyStickControl` (spec §4.4/§8) the boolean view
of a handle variable is too coarse: "no duplicate per-frame loop" is a
statement about how many live callback chains exist, not about the variable.
This refinement of `startSpyStickControl` (`useStickControl.ts` lines 21–150)
projects the same source lines onto an explicit handle-allocation model: the
host's tables of pending timeouts/animation frames (each live chain represented
by the handle of its currently pending callback) plus the two closure
variables `spyStickTimer` / `spyStickRaf`.  Stick positions and parameter
writes are carried by the machine model above and are irrelevant to the loop
count. -/

/-- Handle-allocation view of the Idle Gesture Scheduler's two handles. -/
structure StickTimers where
  nextId : ℕ
  pendingTimeouts : List ℕ
  pendingFrames : List ℕ
  spyStickTimer : Option ℕ
  spyStickRaf : Option ℕ
deriving DecidableEq, Repr

/-- Source: `if (spyStickTimer) { clearTimeout(spyStickTimer); spyStickTimer = null }`
(`useStickControl.ts` lines 38–41). -/
def clearStickTimer (t : StickTimers) : StickTimers :=
  match t.spyStickTimer with
  | some h => { t with pendingTimeouts := t.pendingTimeouts.erase h, spyStickTimer := none }
  | none => t

/-- Source: `if (spyStickRaf) { cancelAnimationFrame(spyStickRaf); spyStickRaf = null }`
(`useStickControl.ts` lines 42–45). -/
def clearStickRaf (t : StickTimers) : StickTimers :=
  match t.spyStickRaf with
  | some h => { t with pendingFrames := t.pendingFrames.erase h, spyStickRaf := none }
  | none => t

/-- Source: the timer effect of `updateSticks()` when invoked synchronously by
`startSpyStickControl` (`useStickControl.ts` lines 48–120): on the mode guard
failing it clears its own frame handle; otherwise it ends with
`spyStickRaf = requestAnimationFrame(updateSticks)`, allocating a fresh
handle. -/
def updateSticksTimers (modeSlack : Bool) (t : StickTimers) : StickTimers :=
  if !modeSlack then clearStickRaf t
  else { t with pendingFrames := t.pendingFrames ++ [t.nextId],
                spyStickRaf := some t.nextId, nextId := t.nextId + 1 }

/-- Source: the timer effect of `randomizeStickTarget()` (`useStickControl.ts`
lines 123–145): on the mode guard failing it clears its own timer handle;
otherwise it ends with `spyStickTimer = window.setTimeout(...)`. -/
def randomizeStickTargetTimers (modeSlack : Bool) (t : StickTimers) : StickTimers :=
  if !modeSlack then clearStickTimer t
  else { t with pendingTimeouts := t.pendingTimeouts ++ [t.nextId],
                spyStickTimer := some t.nextId, nextId := t.nextId + 1 }

/-- Source: `startSpyStickControl` (`useStickControl.ts` lines 21–150) on the
handle view: early return when the model has no stick parameters, else clear
the previous timer and frame, then run `updateSticks()` and
`randomizeStickTarget()` synchronously. -/
def startSpyStickControlTimers (hasStick modeSlack : Bool) (t : StickTimers) : StickTimers :=
  if !hasStick then t
  else
    randomizeStickTargetTimers modeSlack
      (updateSticksTimers modeSlack (clearStickRaf (clearStickTimer t)))

/-- Well-formedness of the handle state: each variable tracks exactly the
pending chain of its table (the situation in every rest state of the real
loop). -/
def StickTimers.WF (t : StickTimers) : Prop :=
  (match t.spyStickTimer with
   | some h => t.pendingTimeouts = [h]
   | none => t.pendingTimeouts = []) ∧
  (match t.spyStickRaf with
   | some h => t.pendingFrames = [h]
   | none => t.pendingFrames = [])

instance (t : StickTimers) : Decidable t.WF := by
  unfold StickTimers.WF
  cases t.spyStickTimer <;> cases t.spyStickRaf <;> dsimp only <;> infer_instance

end ClawCat

namespace ClawCat

/-! ## Theorems for claims C2, C3, C4, C10 -/

/-- If a parameter identifier is unknown on a loaded core model, the modelled
index lookup yields the invalid index `-1`. -/
theorem CoreModel.getParameterIndex_eq_neg_one (m : CoreModel) (id : String)
    (h : m.params.any (fun p => p.id = id) = false) :
    m.getParameterIndex id = -1 := by
  unfold CoreModel.getParameterIndex
  have hfind : m.params.findIdx? (fun p => decide (p.id = id)) = none := by
    rw [List.findIdx?_eq_none_iff]
    intro p hp
    by_contra hcontra
    have htrue : decide (p.id = id) = true := eq_true_of_ne_false hcontra
    have hany : m.params.any (fun q => decide (q.id = id)) = true :=
      List.any_eq_true.mpr ⟨p, hp, htrue⟩
    rw [hany] at h
    exact absurd h (by decide)
  simp [hfind]

/-- **C2.** For every parameter identifier that is unknown on the currently
loaded model (and also when no model is loaded), `getParameterRange(id)` returns
`{min: 0, max: 0}` — the sentinel callers use to skip writes to that parameter. -/
theorem c2_unknown_param_range_sentinel (s : Live2dState) (id : String)
    (h : paramKnown s id = false) : getParameterRange s id = (0, 0) := by
  unfold getParameterRange
  match hm : s.model with
  | none => rfl
  | some m =>
    have hany : m.params.any (fun p => p.id = id) = false := by
      unfold paramKnown at h
      rw [hm] at h
      exact h
    have hidx : m.getParameterIndex id = -1 := CoreModel.getParameterIndex_eq_neg_one m id hany
    show (m.getParameterMinimumValue (m.getParameterIndex id),
          m.getParameterMaximumValue (m.getParameterIndex id)) = (0, 0)
    rw [hidx]
    unfold CoreModel.getParameterMinimumValue CoreModel.getParameterMaximumValue
    rw [dif_neg (by omega), dif_neg (by omega)]

/-- Closed witness for C2: on a concrete one-parameter model, an identifier
that does not appear yields the `(0, 0)` sentinel. -/
theorem c2_unknown_param_range_sentinel_witness :
    paramKnown ⟨some ⟨[⟨"ParamAngleX", -30, 30, 0⟩]⟩⟩ "CatParamStickLX" = false ∧
      getParameterRange ⟨some ⟨[⟨"ParamAngleX", -30, 30, 0⟩]⟩⟩ "CatParamStickLX" = (0, 0) :=
  ⟨by decide,
   c2_unknown_param_range_sentinel ⟨some ⟨[⟨"ParamAngleX", -30, 30, 0⟩]⟩⟩ "CatParamStickLX"
     (by decide)⟩

/-- If the modelled index lookup finds an index, that index is in bounds and
the parameter there matches the identifier. -/
theorem findIdx?_some_spec {α : Type} (p : α → Bool) :
    ∀ (l : List α) (i : ℕ), l.findIdx? p = some i →
      ∃ h : i < l.length, p (l.get ⟨i, h⟩) = true := by
  intro l
  induction l with
  | nil =>
    intro i h
    simp [List.findIdx?] at h
  | cons a t ih =>
    intro i h
    rw [List.findIdx?_cons] at h
    by_cases hp : p a = true
    · rw [if_pos hp] at h
      simp at h
      subst h
      exact ⟨Nat.succ_pos _, hp⟩
    · rw [if_neg hp, List.findIdx?_succ] at h
      cases hm : t.findIdx? p with
      | none =>
        rw [hm] at h
        simp at h
      | some j =>
        rw [hm] at h
        simp at h
        obtain ⟨hlt, hget⟩ := ih j hm
        subst h
        exact ⟨by simpa using Nat.succ_lt_succ hlt, by simpa using hget⟩

/-- **C3.** `setParameterValue(id, value)` returns a boolean success flag: under
the spec's sentinel convention (no declared parameter has range `(0, 0)`), for
every parameter whose probed range is `(0, 0)` the call is a no-op returning
`false`, and for every parameter whose probed range is not the sentinel the
call returns `true` (the write is applied). -/
theorem c3_set_param_success_flag (s : Live2dState) (id : String) (v : ℚ)
    (hwf : s.WF) :
    (getParameterRange s id = (0, 0) → setParameterValue s id v = (s, false)) ∧
    (getParameterRange s id ≠ (0, 0) → (setParameterValue s id v).2 = true) := by
  obtain ⟨mo⟩ := s
  cases mo with
  | none =>
    refine ⟨fun _ => rfl, fun hne => ?_⟩
    exact absurd rfl hne
  | some m =>
    unfold Live2dState.WF at hwf
    simp only at hwf
    cases hfind : m.params.findIdx? (fun p => decide (p.id = id)) with
    | none =>
      have hrange : getParameterRange ⟨some m⟩ id = (0, 0) := by
        show (m.getParameterMinimumValue (m.getParameterIndex id),
              m.getParameterMaximumValue (m.getParameterIndex id)) = (0, 0)
        have hidx : m.getParameterIndex id = -1 := by
          unfold CoreModel.getParameterIndex
          rw [hfind]
        rw [hidx]
        unfold CoreModel.getParameterMinimumValue CoreModel.getParameterMaximumValue
        rw [dif_neg (by omega), dif_neg (by omega)]
      refine ⟨fun _ => ?_, fun hne => absurd hrange hne⟩
      show (let r := m.setParameterValueById id v
            ((⟨some r.1⟩ : Live2dState), r.2)) = (⟨some m⟩, false)
      unfold CoreModel.setParameterValueById
      rw [hfind]
      rfl
    | some i =>
      obtain ⟨hlt, hget⟩ := findIdx?_some_spec _ _ _ hfind
      have hrange : getParameterRange ⟨some m⟩ id =
          ((m.params.get ⟨i, hlt⟩).min, (m.params.get ⟨i, hlt⟩).max) := by
        show (m.getParameterMinimumValue (m.getParameterIndex id),
              m.getParameterMaximumValue (m.getParameterIndex id)) = _
        have hidx : m.getParameterIndex id = (i : Int) := by
          unfold CoreModel.getParameterIndex
          rw [hfind]
        rw [hidx]
        unfold CoreModel.getParameterMinimumValue CoreModel.getParameterMaximumValue
        rw [dif_pos (by constructor <;> simp [hlt]), dif_pos (by constructor <;> simp [hlt])]
        simp only [Int.toNat_natCast]
      have hmem : m.params.get ⟨i, hlt⟩ ∈ m.params := List.get_mem m.params i hlt
      have hnz : ¬((m.params.get ⟨i, hlt⟩).min = 0 ∧ (m.params.get ⟨i, hlt⟩).max = 0) :=
        hwf _ hmem
      constructor
      · intro h0
        rw [hrange] at h0
        exact absurd ⟨congrArg Prod.fst h0, congrArg Prod.snd h0⟩ hnz
      · intro _
        show (let r := m.setParameterValueById id v
              ((⟨some r.1⟩ : Live2dState), r.2)).2 = true
        unfold CoreModel.setParameterValueById
        rw [hfind]
        rfl

/-- Closed witness for C3: on a concrete well-formed one-parameter model, a
write to an absent parameter is a no-op returning `false`, and a write to the
present parameter returns `true`. -/
theorem c3_set_param_success_flag_witness :
    setParameterValue ⟨some ⟨[⟨"CatParamLeftHandDown", 0, 1, 0⟩]⟩⟩ "CatParamStickLX" 1 =
        (⟨some ⟨[⟨"CatParamLeftHandDown", 0, 1, 0⟩]⟩⟩, false) ∧
      (setParameterValue ⟨some ⟨[⟨"CatParamLeftHandDown", 0, 1, 0⟩]⟩⟩ "CatParamLeftHandDown" 1).2 =
        true :=
  ⟨(c3_set_param_success_flag ⟨some ⟨[⟨"CatParamLeftHandDown", 0, 1, 0⟩]⟩⟩ "CatParamStickLX" 1
      (by decide)).1 (by decide),
   (c3_set_param_success_flag ⟨some ⟨[⟨"CatParamLeftHandDown", 0, 1, 0⟩]⟩⟩ "CatParamLeftHandDown" 1
      (by decide)).2 (by decide)⟩

/-- **C4.** For every poll: on success the normalized status record is
overwritten wholesale (the post-status depends only on the response body, not
on the previous record); on failure (non-2xx or transport error) the previous
record is retained unchanged and `fetchStatus` returns the `null` sentinel
instead of throwing. -/
theorem c4_poll_overwrite_or_retain (prev : BackendStatus) (outcome : ApiOutcome) :
    (apiRequestStatus outcome = none → fetchStatus prev outcome = (prev, none)) ∧
    (∀ body, apiRequestStatus outcome = some body →
      fetchStatus prev outcome = (normalizeStatus body, some (normalizeStatus body))) ∧
    (∀ prev' : BackendStatus, (fetchStatus prev outcome).2 ≠ none →
      (fetchStatus prev outcome).1 = (fetchStatus prev' outcome).1) := by
  cases outcome <;> simp [fetchStatus, apiRequestStatus]

/-- Closed witness for C4: a transport error retains the initial status record
and returns the `null` sentinel. -/
theorem c4_poll_overwrite_or_retain_witness :
    fetchStatus initialBackendStatus ApiOutcome.transportError = (initialBackendStatus, none) :=
  (c4_poll_overwrite_or_retain initialBackendStatus ApiOutcome.transportError).1 rfl

/-- **C10.** For every successful poll whose response body omits or has a falsy
`mode`, `pid`, `state` or `message`, the normalized record substitutes the
defaults `slacking` / `0` / `resting` / `Standing by...`, while `hook_payload`,
`hook_type` and `hook_action` are passed through unmodified. -/
theorem c10_normalize_status_defaults (data : RawStatus) :
    ((data.mode = none ∨ data.mode = some "") → (normalizeStatus data).mode = "slacking") ∧
    ((data.pid = none ∨ data.pid = some 0) → (normalizeStatus data).pid = 0) ∧
    ((data.state = none ∨ data.state = some "") → (normalizeStatus data).state = "resting") ∧
    ((data.message = none ∨ data.message = some "") →
      (normalizeStatus data).message = "Standing by...") ∧
    (normalizeStatus data).hook_payload = data.hook_payload ∧
    (normalizeStatus data).hook_type = data.hook_type ∧
    (normalizeStatus data).hook_action = data.hook_action := by
  refine ⟨?_, ?_, ?_, ?_, rfl, rfl, rfl⟩ <;>
    rintro (h | h) <;> simp [normalizeStatus, jsOrStr, jsOrInt, h]

/-- Closed witness for C10: the all-absent response body normalizes to the four
defaults. -/
theorem c10_normalize_status_defaults_witness :
    (normalizeStatus ⟨none, none, none, none, none, none, none⟩).mode = "slacking" ∧
    (normalizeStatus ⟨none, none, none, none, none, none, none⟩).pid = 0 ∧
    (normalizeStatus ⟨none, none, none, none, none, none, none⟩).state = "resting" ∧
    (normalizeStatus ⟨none, none, none, none, none, none, none⟩).message = "Standing by..." := by
  have h := c10_normalize_status_defaults ⟨none, none, none, none, none, none, none⟩
  exact ⟨h.1 (Or.inl rfl), h.2.1 (Or.inl rfl), h.2.2.1 (Or.inl rfl), h.2.2.2.1 (Or.inl rfl)⟩

/-! ## Theorems for claims C6, C7, C8 -/

/-- **C6.** For every combination of inputs, the Reactive Puppet Controller
computes `leftHandDown` (resp. `rightHandDown`) exactly as: the corresponding
gesture channel is active, OR some pressed key's resource path belongs to that
hand's group, OR (mode = Spy ∧ activity = Working ∧ no keys pressed at all);
and the two gesture-hand-visibility parameters are forced `false` exactly when
at least one key is pressed. -/
theorem c6_hand_derivation (keys : List (String × String)) (activeL activeR : Bool)
    (mode : Mode) (state : Activity) :
    ((handUpdate keys activeL activeR mode state).leftHandDown = true ↔
      handDownSpec Hand.left keys activeL mode state) ∧
    ((handUpdate keys activeL activeR mode state).rightHandDown = true ↔
      handDownSpec Hand.right keys activeR mode state) ∧
    ((handUpdate keys activeL activeR mode state).hideStickHands = true ↔ keys ≠ []) := by
  have shuffle : ∀ (P : String → Prop),
      (∃ x, (∃ a, (a, x) ∈ keys) ∧ P x) ↔ ∃ a b, (a, b) ∈ keys ∧ P b := by
    intro P
    constructor
    · rintro ⟨x, ⟨a, hm⟩, hp⟩
      exact ⟨a, x, hm, hp⟩
    · rintro ⟨a, b, hm, hp⟩
      exact ⟨b, ⟨a, hm⟩, hp⟩
  unfold handUpdate handDownSpec
  refine ⟨?_, ?_, ?_⟩ <;>
    simp [List.any_eq_true, List.mem_map, Bool.and_eq_true, Bool.not_eq_true',
      List.length_pos, List.length_eq_zero, shuffle] <;>
    aesop

/-- **C7, counterexample.** The claim's scenario input — state `confirming`, a
hook payload with `action = "ask_permission"`, `caption = "Allow? read file"`,
`can_always = true`, and no top-level `hook_action`/`hook_type` fields on the
poll result — does *not* yield a `PermissionAsk` decision record: the watcher
reads `hook_action || hook_type` (not `hook_payload.action`), finds neither,
and falls to the unknown branch (`confirmingType = null`). -/
theorem c7_payload_action_counterexample :
    (stateWatchDecision "confirming" none none
        (some ⟨some "ask_permission", some ⟨some "Allow? read file", some true, none⟩⟩)
        initialUiDecision).confirmingType ≠ some ConfirmType.ask_permission ∧
    (stateWatchDecision "confirming" none none
        (some ⟨some "ask_permission", some ⟨some "Allow? read file", some true, none⟩⟩)
        initialUiDecision).confirmingContext = "需要确认操作" := by
  decide

/-- **C7, amended.** If the poll result carries the action in its top-level
`hook_action` field (which is what the watcher reads), state `confirming`, and
a hook payload with `data.caption = "Allow? read file"` and `can_always = true`,
then the resulting decision record has kind `PermissionAsk`, prompt text
`"read file"` (the `"Allow? "` prefix stripped), `allowsAlwaysOption = true`,
and no jump-only flag. -/
theorem c7_permission_ask_scenario :
    stateWatchDecision "confirming" (some "ask_permission") none
        (some ⟨some "ask_permission", some ⟨some "Allow? read file", some true, none⟩⟩)
        initialUiDecision =
      { initialUiDecision with
          confirmingType := some ConfirmType.ask_permission
          confirmingContext := "read file"
          canAlways := true
          jumpOnly := false } := by
  decide

/-! ## Theorems for claims C1, C5, C9 -/

/-- `updateSticks` touches only the Idle Gesture Scheduler's own state. -/
theorem updateSticks_frame (s : SysState) :
    (updateSticks s).mode = s.mode ∧ (updateSticks s).activity = s.activity ∧
    (updateSticks s).agentActionTimer = s.agentActionTimer ∧
    (updateSticks s).agentMouseTimer = s.agentMouseTimer ∧
    (updateSticks s).agentMouseRaf = s.agentMouseRaf ∧
    (updateSticks s).pressedKeys = s.pressedKeys ∧
    (updateSticks s).spyStickTimer = s.spyStickTimer := by
  unfold updateSticks
  dsimp only
  repeat' split
  all_goals exact ⟨rfl, rfl, rfl, rfl, rfl, rfl, rfl⟩

/-- `randomizeStickTarget` touches only the Idle Gesture Scheduler's own
state. -/
theorem randomizeStickTarget_frame (o : Oracle) (s : SysState) :
    (randomizeStickTarget o s).mode = s.mode ∧
    (randomizeStickTarget o s).activity = s.activity ∧
    (randomizeStickTarget o s).agentActionTimer = s.agentActionTimer ∧
    (randomizeStickTarget o s).agentMouseTimer = s.agentMouseTimer ∧
    (randomizeStickTarget o s).agentMouseRaf = s.agentMouseRaf ∧
    (randomizeStickTarget o s).pressedKeys = s.pressedKeys ∧
    (randomizeStickTarget o s).spyStickRaf = s.spyStickRaf := by
  unfold randomizeStickTarget
  dsimp only
  repeat' split
  all_goals exact ⟨rfl, rfl, rfl, rfl, rfl, rfl, rfl⟩

/-- `startSpyStickControl` touches only the Idle Gesture Scheduler's own
state: mode, activity, the agent scheduler's handles and the key records are
unchanged. -/
theorem startSpyStickControl_frame (o : Oracle) (s : SysState) :
    (startSpyStickControl o s).mode = s.mode ∧
    (startSpyStickControl o s).activity = s.activity ∧
    (startSpyStickControl o s).agentActionTimer = s.agentActionTimer ∧
    (startSpyStickControl o s).agentMouseTimer = s.agentMouseTimer ∧
    (startSpyStickControl o s).agentMouseRaf = s.agentMouseRaf ∧
    (startSpyStickControl o s).pressedKeys = s.pressedKeys := by
  unfold startSpyStickControl
  dsimp only
  split
  · exact ⟨rfl, rfl, rfl, rfl, rfl, rfl⟩
  · obtain ⟨r1, r2, r3, r4, r5, r6, -⟩ := randomizeStickTarget_frame o
      (updateSticks { s with spyStickTimer := false, spyStickRaf := false })
    obtain ⟨u1, u2, u3, u4, u5, u6, -⟩ :=
      updateSticks_frame { s with spyStickTimer := false, spyStickRaf := false }
    exact ⟨by rw [r1, u1], by rw [r2, u2], by rw [r3, u3], by rw [r4, u4],
      by rw [r5, u5], by rw [r6, u6]⟩

/-- `scheduleNextKeyAction` (with its inner `triggerRandomKey`) touches only
the Autonomous Action Scheduler's own state. -/
theorem scheduleNextKeyAction_frame (o : Oracle) (s : SysState) :
    (scheduleNextKeyAction o s).mode = s.mode ∧
    (scheduleNextKeyAction o s).activity = s.activity ∧
    (scheduleNextKeyAction o s).spyStickTimer = s.spyStickTimer ∧
    (scheduleNextKeyAction o s).spyStickRaf = s.spyStickRaf ∧
    (scheduleNextKeyAction o s).stickActiveL = s.stickActiveL ∧
    (scheduleNextKeyAction o s).stickActiveR = s.stickActiveR ∧
    (scheduleNextKeyAction o s).showLeftHand = s.showLeftHand ∧
    (scheduleNextKeyAction o s).showRightHand = s.showRightHand ∧
    (scheduleNextKeyAction o s).stickLeftDown = s.stickLeftDown ∧
    (scheduleNextKeyAction o s).stickRightDown = s.stickRightDown ∧
    (scheduleNextKeyAction o s).agentMouseTimer = s.agentMouseTimer ∧
    (scheduleNextKeyAction o s).agentMouseRaf = s.agentMouseRaf := by
  unfold scheduleNextKeyAction triggerRandomKey
  dsimp only
  repeat' split
  all_goals exact ⟨rfl, rfl, rfl, rfl, rfl, rfl, rfl, rfl, rfl, rfl, rfl, rfl⟩

/-- `scheduleNextMouseMove` (with its inner `triggerRandomMouseMove`) touches
only the Autonomous Action Scheduler's own state. -/
theorem scheduleNextMouseMove_frame (s : SysState) :
    (scheduleNextMouseMove s).mode = s.mode ∧
    (scheduleNextMouseMove s).activity = s.activity ∧
    (scheduleNextMouseMove s).spyStickTimer = s.spyStickTimer ∧
    (scheduleNextMouseMove s).spyStickRaf = s.spyStickRaf ∧
    (scheduleNextMouseMove s).stickActiveL = s.stickActiveL ∧
    (scheduleNextMouseMove s).stickActiveR = s.stickActiveR ∧
    (scheduleNextMouseMove s).showLeftHand = s.showLeftHand ∧
    (scheduleNextMouseMove s).showRightHand = s.showRightHand ∧
    (scheduleNextMouseMove s).stickLeftDown = s.stickLeftDown ∧
    (scheduleNextMouseMove s).stickRightDown = s.stickRightDown ∧
    (scheduleNextMouseMove s).agentActionTimer = s.agentActionTimer ∧
    (scheduleNextMouseMove s).pressedKeys = s.pressedKeys := by
  unfold scheduleNextMouseMove triggerRandomMouseMove stopAgentMouseDrag
  dsimp only
  repeat' split
  all_goals exact ⟨rfl, rfl, rfl, rfl, rfl, rfl, rfl, rfl, rfl, rfl, rfl, rfl⟩

/-- `startAgentAutoActions` touches only the Autonomous Action Scheduler's own
state: mode, activity, the stick scheduler's handles and the gesture
parameters are unchanged. -/
theorem startAgentAutoActions_frame (o : Oracle) (s : SysState) :
    (startAgentAutoActions o s).mode = s.mode ∧
    (startAgentAutoActions o s).activity = s.activity ∧
    (startAgentAutoActions o s).spyStickTimer = s.spyStickTimer ∧
    (startAgentAutoActions o s).spyStickRaf = s.spyStickRaf ∧
    (startAgentAutoActions o s).stickActiveL = s.stickActiveL ∧
    (startAgentAutoActions o s).stickActiveR = s.stickActiveR ∧
    (startAgentAutoActions o s).showLeftHand = s.showLeftHand ∧
    (startAgentAutoActions o s).showRightHand = s.showRightHand ∧
    (startAgentAutoActions o s).stickLeftDown = s.stickLeftDown ∧
    (startAgentAutoActions o s).stickRightDown = s.stickRightDown := by
  unfold startAgentAutoActions
  obtain ⟨m1, m2, m3, m4, m5, m6, m7, m8, m9, m10, -, -⟩ :=
    scheduleNextMouseMove_frame (scheduleNextKeyAction o s)
  obtain ⟨k1, k2, k3, k4, k5, k6, k7, k8, k9, k10, -, -⟩ := scheduleNextKeyAction_frame o s
  exact ⟨by rw [m1, k1], by rw [m2, k2], by rw [m3, k3], by rw [m4, k4], by rw [m5, k5],
    by rw [m6, k6], by rw [m7, k7], by rw [m8, k8], by rw [m9, k9], by rw [m10, k10]⟩

/-- Invariant transfer: a state whose mode and five scheduler handles agree
with those of an invariant-satisfying state satisfies the invariant. -/
theorem schedInv_transfer {s t : SysState} (h : SchedInv s) (hm : t.mode = s.mode)
    (e1 : t.agentActionTimer = s.agentActionTimer)
    (e2 : t.agentMouseTimer = s.agentMouseTimer)
    (e3 : t.agentMouseRaf = s.agentMouseRaf)
    (e4 : t.spyStickTimer = s.spyStickTimer)
    (e5 : t.spyStickRaf = s.spyStickRaf) : SchedInv t := by
  obtain ⟨h1, h2⟩ := h
  constructor
  · intro hr
    rw [hm]
    refine h1 ?_
    unfold agentRunning at hr ⊢
    rw [e1, e2, e3] at hr
    exact hr
  · intro hr
    rw [hm]
    refine h2 ?_
    unfold stickRunning at hr ⊢
    rw [e4, e5] at hr
    exact hr

/-- A state with all five scheduler handles cleared satisfies the invariant. -/
theorem schedInv_of_timers_false (s : SysState)
    (h1 : s.agentActionTimer = false) (h2 : s.agentMouseTimer = false)
    (h3 : s.agentMouseRaf = false) (h4 : s.spyStickTimer = false)
    (h5 : s.spyStickRaf = false) : SchedInv s := by
  constructor
  · intro hr
    unfold agentRunning at hr
    rw [h1, h2, h3] at hr
    simp at hr
  · intro hr
    unfold stickRunning at hr
    rw [h4, h5] at hr
    simp at hr

/-- Starting the Idle Gesture Scheduler in `slacking` mode on a state whose
agent handles are cleared yields an invariant-satisfying state. -/
theorem schedInv_startSpyStickControl (o : Oracle) (s : SysState)
    (hm : s.mode = Mode.slacking) (h1 : s.agentActionTimer = false)
    (h2 : s.agentMouseTimer = false) (h3 : s.agentMouseRaf = false) :
    SchedInv (startSpyStickControl o s) := by
  obtain ⟨f1, -, f3, f4, f5, -⟩ := startSpyStickControl_frame o s
  constructor
  · intro hr
    exfalso
    unfold agentRunning at hr
    rw [f3, f4, f5, h1, h2, h3] at hr
    simp at hr
  · intro _
    rw [f1, hm]

/-- Starting the Autonomous Action Scheduler in `spying` mode on a state whose
stick handles are cleared yields an invariant-satisfying state. -/
theorem schedInv_startAgentAutoActions (o : Oracle) (s : SysState)
    (hm : s.mode = Mode.spying) (h4 : s.spyStickTimer = false)
    (h5 : s.spyStickRaf = false) : SchedInv (startAgentAutoActions o s) := by
  obtain ⟨f1, -, f3, f4, -⟩ := startAgentAutoActions_frame o s
  constructor
  · intro _
    rw [f1, hm]
  · intro hr
    exfalso
    unfold stickRunning at hr
    rw [f3, f4, h4, h5] at hr
    simp at hr

/-- Every effective mode change re-establishes the scheduler-exclusion
invariant unconditionally: `updateModeBehavior` stops both schedulers before
starting the one selected by the (new) mode. -/
theorem schedInv_updateModeBehavior (o : Oracle) (s : SysState) :
    SchedInv (updateModeBehavior o s) := by
  obtain ⟨m, a, pk, sk, t1, t2, t3, mr, st, sr, aL, aR, lx, ly, rx, ry,
    tlx, tly, trx, tr2, hL, hR, shL, shR, dL, dR, lhd, rhd⟩ := s
  unfold updateModeBehavior stopAgentActions stopAgentMouseDrag stopSpyStickControl
  dsimp only
  cases m with
  | slacking =>
    simp
    exact schedInv_startSpyStickControl o _ rfl rfl rfl rfl
  | spying =>
    cases a with
    | resting =>
      simp
      exact schedInv_of_timers_false _ rfl rfl rfl rfl rfl
    | working =>
      simp
      exact schedInv_startAgentAutoActions o _ rfl rfl rfl
    | confirming =>
      simp
      exact schedInv_of_timers_false _ rfl rfl rfl rfl rfl

/-- Every effective activity change re-establishes the scheduler-exclusion
invariant unconditionally. -/
theorem schedInv_updateStateBehavior (o : Oracle) (s : SysState) :
    SchedInv (updateStateBehavior o s) := by
  obtain ⟨m, a, pk, sk, t1, t2, t3, mr, st, sr, aL, aR, lx, ly, rx, ry,
    tlx, tly, trx, tr2, hL, hR, shL, shR, dL, dR, lhd, rhd⟩ := s
  unfold updateStateBehavior stopAgentActions stopAgentMouseDrag stopSpyStickControl
  dsimp only
  cases m with
  | slacking =>
    simp
    split
    case isTrue hg =>
      exfalso
      obtain ⟨hmode, -⟩ := hg
      rw [(startSpyStickControl_frame o _).1] at hmode
      simp at hmode
    case isFalse hg =>
      exact schedInv_startSpyStickControl o _ rfl rfl rfl rfl
  | spying =>
    cases a with
    | resting =>
      simp
      exact schedInv_of_timers_false _ rfl rfl rfl rfl rfl
    | working =>
      simp
      exact schedInv_startAgentAutoActions o _ rfl rfl rfl
    | confirming =>
      simp
      exact schedInv_of_timers_false _ rfl rfl rfl rfl rfl

/-- A key-pulse timer body can leave its own handle armed only when the gating
predicate held at fire time. -/
theorem scheduleNextKeyAction_timer (o : Oracle) (s : SysState)
    (h : (scheduleNextKeyAction o s).agentActionTimer = true) : agentGate s := by
  by_cases hg : agentGate s
  · exact hg
  · exfalso
    unfold scheduleNextKeyAction at h
    rw [if_pos hg] at h
    simp at h

/-- A pointer-walk timer body can leave its own handle armed only when the
gating predicate held at fire time. -/
theorem scheduleNextMouseMove_timer (s : SysState)
    (h : (scheduleNextMouseMove s).agentMouseTimer = true) : agentGate s := by
  by_cases hg : agentGate s
  · exact hg
  · exfalso
    unfold scheduleNextMouseMove at h
    rw [if_pos hg] at h
    simp at h

/-- A pointer-walk timer body arms the animation frame only under the gate (or
the frame was already armed). -/
theorem scheduleNextMouseMove_raf (s : SysState)
    (h : (scheduleNextMouseMove s).agentMouseRaf = true) :
    agentGate s ∨ s.agentMouseRaf = true := by
  by_cases hg : agentGate s
  · exact Or.inl hg
  · right
    unfold scheduleNextMouseMove at h
    rw [if_pos hg] at h
    simpa using h

/-- The eased pointer-walk frame re-arms itself only under the gate. -/
theorem mouseTick_raf (o : Oracle) (s : SysState)
    (h : (mouseTick o s).agentMouseRaf = true) : agentGate s := by
  by_cases hg : agentGate s
  · exact hg
  · exfalso
    unfold mouseTick stopAgentMouseDrag at h
    rw [if_pos hg] at h
    simp at h

/-- `mouseTick` touches nothing but the pointer ratio and its own frame
handle. -/
theorem mouseTick_frame (o : Oracle) (s : SysState) :
    (mouseTick o s).mode = s.mode ∧
    (mouseTick o s).agentActionTimer = s.agentActionTimer ∧
    (mouseTick o s).agentMouseTimer = s.agentMouseTimer ∧
    (mouseTick o s).spyStickTimer = s.spyStickTimer ∧
    (mouseTick o s).spyStickRaf = s.spyStickRaf := by
  unfold mouseTick applyMouseRatio stopAgentMouseDrag
  (try dsimp only)
  repeat' split
  all_goals exact ⟨rfl, rfl, rfl, rfl, rfl⟩

/-- The retarget timer body re-arms itself only in `slacking` mode. -/
theorem randomizeStickTarget_timer (o : Oracle) (s : SysState)
    (h : (randomizeStickTarget o s).spyStickTimer = true) : s.mode = Mode.slacking := by
  by_cases hm : s.mode = Mode.slacking
  · exact hm
  · exfalso
    unfold randomizeStickTarget at h
    rw [if_pos hm] at h
    simp at h

/-- The per-frame stick loop re-arms itself only in `slacking` mode. -/
theorem updateSticks_raf (s : SysState)
    (h : (updateSticks s).spyStickRaf = true) : s.mode = Mode.slacking := by
  by_cases hm : s.mode = Mode.slacking
  · exact hm
  · exfalso
    unfold updateSticks at h
    rw [if_pos hm] at h
    simp at h

/-- The deferred key release touches only `pressedKeys`. -/
theorem keyHoldRelease_frame (k : String) (s : SysState) :
    (keyHoldRelease k s).mode = s.mode ∧
    (keyHoldRelease k s).agentActionTimer = s.agentActionTimer ∧
    (keyHoldRelease k s).agentMouseTimer = s.agentMouseTimer ∧
    (keyHoldRelease k s).agentMouseRaf = s.agentMouseRaf ∧
    (keyHoldRelease k s).spyStickTimer = s.spyStickTimer ∧
    (keyHoldRelease k s).spyStickRaf = s.spyStickRaf := by
  unfold keyHoldRelease
  repeat' split
  all_goals exact ⟨rfl, rfl, rfl, rfl, rfl, rfl⟩

/-- The hand-control watch touches only the hand/visibility parameters. -/
theorem applyHandWatch_frame (s : SysState) :
    (applyHandWatch s).mode = s.mode ∧
    (applyHandWatch s).agentActionTimer = s.agentActionTimer ∧
    (applyHandWatch s).agentMouseTimer = s.agentMouseTimer ∧
    (applyHandWatch s).agentMouseRaf = s.agentMouseRaf ∧
    (applyHandWatch s).spyStickTimer = s.spyStickTimer ∧
    (applyHandWatch s).spyStickRaf = s.spyStickRaf := by
  unfold applyHandWatch
  (try dsimp only)
  repeat' split
  all_goals exact ⟨rfl, rfl, rfl, rfl, rfl, rfl⟩

/-- The manual test trigger touches only `pressedKeys`. -/
theorem testKeyPressFn_frame (k : String) (s : SysState) :
    (testKeyPressFn k s).mode = s.mode ∧
    (testKeyPressFn k s).agentActionTimer = s.agentActionTimer ∧
    (testKeyPressFn k s).agentMouseTimer = s.agentMouseTimer ∧
    (testKeyPressFn k s).agentMouseRaf = s.agentMouseRaf ∧
    (testKeyPressFn k s).spyStickTimer = s.spyStickTimer ∧
    (testKeyPressFn k s).spyStickRaf = s.spyStickRaf := by
  unfold testKeyPressFn
  repeat' split
  all_goals exact ⟨rfl, rfl, rfl, rfl, rfl, rfl⟩

/-- Every atomic event preserves the scheduler-exclusion invariant. -/
theorem schedInv_step {s t : SysState} (h : SchedInv s) (hst : Step s t) :
    SchedInv t := by
  obtain ⟨h1, h2⟩ := h
  cases hst with
  | setMode m o hm => exact schedInv_updateModeBehavior o _
  | setActivity a o ha => exact schedInv_updateStateBehavior o _
  | mount o => exact schedInv_updateModeBehavior o s
  | keyTimerFire o ht =>
    obtain ⟨f1, -, f3, f4, -, -, -, -, -, -, f11, f12⟩ := scheduleNextKeyAction_frame o s
    constructor
    · intro hr
      rw [f1]
      unfold agentRunning at hr
      rcases hr with hr | hr | hr
      · exact (scheduleNextKeyAction_timer o s hr).1
      · rw [f11] at hr
        exact h1 (Or.inr (Or.inl hr))
      · rw [f12] at hr
        exact h1 (Or.inr (Or.inr hr))
    · intro hr
      rw [f1]
      unfold stickRunning at hr
      rw [f3, f4] at hr
      exact h2 hr
  | mouseTimerFire ht =>
    obtain ⟨f1, -, f3, f4, -, -, -, -, -, -, f11, -⟩ := scheduleNextMouseMove_frame s
    constructor
    · intro hr
      rw [f1]
      unfold agentRunning at hr
      rcases hr with hr | hr | hr
      · rw [f11] at hr
        exact h1 (Or.inl hr)
      · exact (scheduleNextMouseMove_timer s hr).1
      · rcases scheduleNextMouseMove_raf s hr with hg | hold
        · exact hg.1
        · exact h1 (Or.inr (Or.inr hold))
    · intro hr
      rw [f1]
      unfold stickRunning at hr
      rw [f3, f4] at hr
      exact h2 hr
  | mouseFrame o ht =>
    obtain ⟨f1, f2, f3, f4, f5⟩ := mouseTick_frame o s
    constructor
    · intro hr
      rw [f1]
      unfold agentRunning at hr
      rcases hr with hr | hr | hr
      · rw [f2] at hr
        exact h1 (Or.inl hr)
      · rw [f3] at hr
        exact h1 (Or.inr (Or.inl hr))
      · exact (mouseTick_raf o s hr).1
    · intro hr
      rw [f1]
      unfold stickRunning at hr
      rw [f4, f5] at hr
      exact h2 hr
  | stickTimerFire o ht =>
    obtain ⟨f1, -, f3, f4, f5, -, f7⟩ := randomizeStickTarget_frame o s
    constructor
    · intro hr
      rw [f1]
      unfold agentRunning at hr
      rw [f3, f4, f5] at hr
      exact h1 hr
    · intro hr
      rw [f1]
      unfold stickRunning at hr
      rcases hr with hr | hr
      · exact randomizeStickTarget_timer o s hr
      · rw [f7] at hr
        exact h2 (Or.inr hr)
  | stickFrame ht =>
    obtain ⟨f1, -, f3, f4, f5, -, f7⟩ := updateSticks_frame s
    constructor
    · intro hr
      rw [f1]
      unfold agentRunning at hr
      rw [f3, f4, f5] at hr
      exact h1 hr
    · intro hr
      rw [f1]
      unfold stickRunning at hr
      rcases hr with hr | hr
      · rw [f7] at hr
        exact h2 (Or.inl hr)
      · exact updateSticks_raf s hr
  | holdRelease k =>
    obtain ⟨f1, f2, f3, f4, f5, f6⟩ := keyHoldRelease_frame k s
    exact schedInv_transfer ⟨h1, h2⟩ f1 f2 f3 f4 f5 f6
  | handWatch =>
    obtain ⟨f1, f2, f3, f4, f5, f6⟩ := applyHandWatch_frame s
    exact schedInv_transfer ⟨h1, h2⟩ f1 f2 f3 f4 f5 f6
  | testPress k =>
    obtain ⟨f1, f2, f3, f4, f5, f6⟩ := testKeyPressFn_frame k s
    exact schedInv_transfer ⟨h1, h2⟩ f1 f2 f3 f4 f5 f6
  | testRelease =>
    exact schedInv_transfer ⟨h1, h2⟩ rfl rfl rfl rfl rfl rfl

/-- The scheduler-exclusion invariant holds in every reachable state. -/
theorem schedInv_reachable (s : SysState) (h : Reachable s) : SchedInv s := by
  induction h with
  | init =>
    constructor
    · intro hr
      unfold agentRunning initState at hr
      simp at hr
    · intro hr
      unfold stickRunning initState at hr
      simp at hr
  | step _ hst ih => exact schedInv_step ih hst

/-- After an effective flip to `slacking`, the Autonomous Action Scheduler is
fully stopped: its two cadence timers and in-flight frame are cleared and all
simulated keys are released. -/
theorem updateModeBehavior_to_slacking (o : Oracle) (s : SysState)
    (hm : s.mode = Mode.slacking) :
    (updateModeBehavior o s).agentActionTimer = false ∧
    (updateModeBehavior o s).agentMouseTimer = false ∧
    (updateModeBehavior o s).agentMouseRaf = false ∧
    (updateModeBehavior o s).pressedKeys = [] := by
  obtain ⟨m, a, pk, sk, t1, t2, t3, mr, st, sr, aL, aR, lx, ly, rx, ry,
    tlx, tly, trx, tr2, hL, hR, shL, shR, dL, dR, lhd, rhd⟩ := s
  dsimp only at hm
  subst hm
  unfold updateModeBehavior stopAgentActions stopAgentMouseDrag stopSpyStickControl
  dsimp only
  simp
  obtain ⟨-, -, f3, f4, f5, f6⟩ := startSpyStickControl_frame o _
  exact ⟨f3.trans rfl, f4.trans rfl, f5.trans rfl, f6.trans rfl⟩

/-- After an effective flip to `spying`, the Idle Gesture Scheduler is fully
stopped: its retarget timer and per-frame loop are cleared and all gesture
visibility/pressed parameters and derived active flags are reset to neutral. -/
theorem updateModeBehavior_to_spying (o : Oracle) (s : SysState)
    (hm : s.mode = Mode.spying) :
    (updateModeBehavior o s).spyStickTimer = false ∧
    (updateModeBehavior o s).spyStickRaf = false ∧
    (updateModeBehavior o s).showLeftHand = false ∧
    (updateModeBehavior o s).showRightHand = false ∧
    (updateModeBehavior o s).stickLeftDown = false ∧
    (updateModeBehavior o s).stickRightDown = false ∧
    (updateModeBehavior o s).stickActiveL = false ∧
    (updateModeBehavior o s).stickActiveR = false := by
  obtain ⟨m, a, pk, sk, t1, t2, t3, mr, st, sr, aL, aR, lx, ly, rx, ry,
    tlx, tly, trx, tr2, hL, hR, shL, shR, dL, dR, lhd, rhd⟩ := s
  dsimp only at hm
  subst hm
  unfold updateModeBehavior stopAgentActions stopAgentMouseDrag stopSpyStickControl
  dsimp only
  cases a with
  | resting => simp
  | working =>
    simp
    obtain ⟨-, -, f3, f4, f5, f6, f7, f8, f9, f10⟩ := startAgentAutoActions_frame o _
    exact ⟨f3.trans rfl, f4.trans rfl, f7.trans rfl, f8.trans rfl,
      f9.trans rfl, f10.trans rfl, f5.trans rfl, f6.trans rfl⟩
  | confirming => simp

/-- **C1.** In every reachable state, at most one of the two schedulers is
running, and which one may run is determined solely by `OperatingMode` (the
Autonomous Action Scheduler only under `spying`, the Idle Gesture Scheduler
only under `slacking`).  Moreover, on every effective mode flip
(`updateModeBehavior` after the mode watch fires with a changed mode) the
other scheduler is fully stopped: flipping to `slacking` clears all three
agent handles and releases all simulated keys; flipping to `spying` clears
both stick handles and resets all gesture visibility/pressed parameters and
active flags to neutral. -/
theorem c1_scheduler_exclusion (s : SysState) (hs : Reachable s) :
    (¬(agentRunning s ∧ stickRunning s) ∧
     (agentRunning s → s.mode = Mode.spying) ∧
     (stickRunning s → s.mode = Mode.slacking)) ∧
    (∀ (m : Mode) (o : Oracle), m ≠ s.mode →
      (m = Mode.slacking →
        (updateModeBehavior o { s with mode := m }).agentActionTimer = false ∧
        (updateModeBehavior o { s with mode := m }).agentMouseTimer = false ∧
        (updateModeBehavior o { s with mode := m }).agentMouseRaf = false ∧
        (updateModeBehavior o { s with mode := m }).pressedKeys = []) ∧
      (m = Mode.spying →
        (updateModeBehavior o { s with mode := m }).spyStickTimer = false ∧
        (updateModeBehavior o { s with mode := m }).spyStickRaf = false ∧
        (updateModeBehavior o { s with mode := m }).showLeftHand = false ∧
        (updateModeBehavior o { s with mode := m }).showRightHand = false ∧
        (updateModeBehavior o { s with mode := m }).stickLeftDown = false ∧
        (updateModeBehavior o { s with mode := m }).stickRightDown = false ∧
        (updateModeBehavior o { s with mode := m }).stickActiveL = false ∧
        (updateModeBehavior o { s with mode := m }).stickActiveR = false)) := by
  obtain ⟨h1, h2⟩ := schedInv_reachable s hs
  refine ⟨⟨?_, h1, h2⟩, ?_⟩
  · rintro ⟨ha, hb⟩
    have e1 := h1 ha
    have e2 := h2 hb
    rw [e1] at e2
    exact absurd e2 (by decide)
  · intro m o _
    constructor
    · intro hm
      subst hm
      exact updateModeBehavior_to_slacking o _ rfl
    · intro hm
      subst hm
      exact updateModeBehavior_to_spying o _ rfl

/-- Closed witness for C1: from the initial state, an effective flip to
`spying` leaves the stick scheduler stopped, and the initial state runs at
most one scheduler. -/
theorem c1_scheduler_exclusion_witness :
    ¬(agentRunning initState ∧ stickRunning initState) ∧
    (updateModeBehavior ⟨[], false, false, 0, 0, 0, false, 0, 0, 0, 0⟩
        { initState with mode := Mode.spying }).spyStickTimer = false :=
  ⟨(c1_scheduler_exclusion initState Reachable.init).1.1,
   (((c1_scheduler_exclusion initState Reachable.init).2 Mode.spying
       ⟨[], false, false, 0, 0, 0, false, 0, 0, 0, 0⟩ (by decide)).2 rfl).1⟩

/-- **C5, counterexample.** The deferred key-release callback does **not**
re-check the gating predicate (mode = Spy ∧ activity = Working) before acting:
on a state in `slacking`/`resting` with the key still pressed, the callback
still acts (it deletes the entry), whereas a removal step that re-checked the
predicate would do nothing there. -/
theorem c5_hold_release_counterexample :
    ¬ agentGate { initState with
        pressedKeys := [("KeyA", "/models/standard/resources/left-keys/KeyA.png")] } ∧
    keyHoldRelease "KeyA" { initState with
        pressedKeys := [("KeyA", "/models/standard/resources/left-keys/KeyA.png")] } ≠
      { initState with
        pressedKeys := [("KeyA", "/models/standard/resources/left-keys/KeyA.png")] } := by
  constructor
  · decide
  · decide

/-- **C5, amended.** The deferred removal step re-checks only that the entry is
still present before acting, and since it only ever deletes (never inserts), a
hold timer that outlives a mode flip can never re-add (resurrect) the entry
after it has been deleted: every key remaining after the callback was already
present before, and the callback is a no-op when the entry is gone. -/
theorem c5_hold_release_never_resurrects (s : SysState) (k : String) :
    (∀ kv : String × String,
      kv ∈ (keyHoldRelease k s).pressedKeys → kv ∈ s.pressedKeys) ∧
    (recLookup s.pressedKeys k = none → keyHoldRelease k s = s) := by
  constructor
  · intro kv hm
    unfold keyHoldRelease at hm
    split at hm
    · split at hm
      · exact hm
      · exact List.mem_of_mem_filter hm
    · exact hm
  · intro hl
    unfold keyHoldRelease
    rw [hl]

/-- Closed witness for C5 (amended): the callback is a no-op on an absent key,
and a surviving entry was present before the callback ran. -/
theorem c5_hold_release_never_resurrects_witness :
    keyHoldRelease "KeyQ" initState = initState ∧
    ("KeyB", "/models/standard/resources/right-keys/KeyB.png") ∈
      [("KeyB", "/models/standard/resources/right-keys/KeyB.png")] :=
  ⟨(c5_hold_release_never_resurrects initState "KeyQ").2 (by decide),
   (c5_hold_release_never_resurrects
       { initState with
         pressedKeys := [("KeyB", "/models/standard/resources/right-keys/KeyB.png")] }
       "KeyA").1
     ("KeyB", "/models/standard/resources/right-keys/KeyB.png") (by decide)⟩

/-- **C9.** The Idle Gesture Scheduler's `start()` is idempotent on the handle
view: calling `startSpyStickControl` twice in a row without an intervening
`stop()` leaves exactly as many live retarget-timer chains and per-frame-loop
chains as calling it once (no duplicate loop), and from a well-formed state
with stick parameters in `slacking` mode, one call leaves exactly one of
each. -/
theorem c9_start_stick_idempotent (t : StickTimers) (hasStick modeSlack : Bool) :
    ((startSpyStickControlTimers hasStick modeSlack
        (startSpyStickControlTimers hasStick modeSlack t)).pendingTimeouts.length =
      (startSpyStickControlTimers hasStick modeSlack t).pendingTimeouts.length ∧
     (startSpyStickControlTimers hasStick modeSlack
        (startSpyStickControlTimers hasStick modeSlack t)).pendingFrames.length =
      (startSpyStickControlTimers hasStick modeSlack t).pendingFrames.length) ∧
    (t.WF → hasStick = true → modeSlack = true →
      (startSpyStickControlTimers hasStick modeSlack t).pendingTimeouts.length = 1 ∧
      (startSpyStickControlTimers hasStick modeSlack t).pendingFrames.length = 1) := by
  obtain ⟨n, pt, pf, vt, vr⟩ := t
  constructor
  · cases hasStick with
    | false => exact ⟨rfl, rfl⟩
    | true =>
      cases modeSlack with
      | false =>
        cases vt <;> cases vr <;>
          simp [startSpyStickControlTimers, updateSticksTimers,
            randomizeStickTargetTimers, clearStickTimer, clearStickRaf]
      | true =>
        cases vt <;> cases vr <;>
          simp [startSpyStickControlTimers, updateSticksTimers,
            randomizeStickTargetTimers, clearStickTimer, clearStickRaf]
  · rintro ⟨w1, w2⟩ hhas hslack
    subst hhas
    subst hslack
    cases vt <;> cases vr <;> dsimp only at w1 w2 <;> subst w1 <;> subst w2 <;>
      simp [startSpyStickControlTimers, updateSticksTimers,
        randomizeStickTargetTimers, clearStickTimer, clearStickRaf]

/-- Closed witness for C9: from the empty handle state (well-formed), one start
in `slacking` mode with stick parameters leaves one timer chain and one frame
chain. -/
theorem c9_start_stick_idempotent_witness :
    (startSpyStickControlTimers true true ⟨0, [], [], none, none⟩).pendingTimeouts.length = 1 ∧
    (startSpyStickControlTimers true true ⟨0, [], [], none, none⟩).pendingFrames.length = 1 :=
  (c9_start_stick_idempotent ⟨0, [], [], none, none⟩ true true).2 (by decide) rfl rfl

/-- **C8.** For every prior UI state (hence for every pending decision kind),
the jump/cancel handlers (`handleNotificationCancel` for the recognized kinds,
`handleUnknownConfirm` for the unknown kind) synchronously — before the
network call resolves — set `ActivityState` to `Resting`, clear the
pending-decision record (`confirmingType = null`, empty prompt text), and
issue the decision request with `choice = "__IGNORE__"` and
`user_input = "__IGNORE__"`. -/
theorem c8_cancel_ignores_and_clears (ui : UiDecisionState) :
    (handleNotificationCancelSync ui).1.activity = Activity.resting ∧
    (handleNotificationCancelSync ui).1.confirmingType = none ∧
    (handleNotificationCancelSync ui).1.confirmingContext = "" ∧
    (handleNotificationCancelSync ui).2 = ⟨"__IGNORE__", some (some "__IGNORE__")⟩ ∧
    (handleUnknownConfirmSync ui).1.activity = Activity.resting ∧
    (handleUnknownConfirmSync ui).1.confirmingType = none ∧
    (handleUnknownConfirmSync ui).1.confirmingContext = "" ∧
    (handleUnknownConfirmSync ui).2 = ⟨"__IGNORE__", some (some "__IGNORE__")⟩ := by
  unfold handleNotificationCancelSync handleUnknownConfirmSync setStateLocal
    sendHookResponsePayload
  by_cases h : ui.activity = Activity.resting <;> simp [h]

end ClawCat
